import Mathlib

/-!
The check evaluation and scoring engine of gohl-provider-linux

A shallow embedding of `main.go`.  The provider reads two artifacts (the SSH
daemon configuration and the kernel forwarding value), evaluates a fixed
catalog of checks and assembles an ordered report.

Modelling choices

* Go strings are modelled by `String`; the text of an artifact is taken to be
  valid UTF-8, so that the byte-wise substring search of `strings.Contains`
  for an ASCII pattern agrees with the search over code points done here.
* Go `int` values are modelled by `Int`; the program performs no arithmetic on
  them, only the constants `0`, `10`, `15`, `20` and copies occur.
* `os.ReadFile` is modelled by a file system: a function from a path to either
  a failure reason (the text of `err.Error()`) or the content of the file.
* A `*api.ScanReport` is an `Option ScanReport` (`none` is the nil pointer),
  an `error` is an `Option String` (`none` is the nil error) and a
  `map[string]string` is an `Option (List (String × String))` (`none` is the
  nil map).
-/

namespace GohlLinux

/-! ## Data model -/

/-- The provider of `main.go`: the two artifact paths it audits. -/
structure LinuxProvider where
  SSHConfigPath : String
  IPForwardPath : String
  deriving DecidableEq, Repr

/-- The fields of `api.PluginInfo` that `Info` fills in. -/
structure PluginInfo where
  ID : String
  Name : String
  Version : String
  Description : String
  Author : String
  deriving DecidableEq, Repr

/-- The fields of `api.CheckResult` that `Analyze` fills in; a field that a
literal of the source leaves out holds the zero value of its type. -/
structure CheckResult where
  ID : String
  Name : String
  Description : String
  Passed : Bool
  Score : Int
  MaxScore : Int
  Remediation : String
  Error : String := ""
  deriving DecidableEq, Repr

/-- The report of `api.ScanReport`: provider identifier and ordered findings. -/
structure ScanReport where
  PluginID : String
  Checks : List CheckResult
  deriving DecidableEq, Repr

/-- A `context.Context` as far as a caller can tell two of them apart: the
value of `ctx.Err()`.  `Analyze` never inspects it. -/
structure Context where
  err : Option String
  deriving DecidableEq, Repr

/-- A Go `map[string]string`; `none` is the nil map. -/
abbrev Options := Option (List (String × String))

/-- The outcome of one `os.ReadFile`: the failure reason or the content. -/
abbrev ReadResult := Except String String

/-- The file system seen by one call of `Analyze`. -/
abbrev FileSystem := String → ReadResult

/-- The call `os.ReadFile(path)`. -/
def ReadFile (fs : FileSystem) (path : String) : ReadResult := fs path

/-! ## The parts of the Go standard library the checks use -/

/-- Search of `substr` in `s` starting at offset `n`: the offset of the first
occurrence, or `-1`. -/
def indexFrom (substr : List Char) : List Char → Nat → Int
  | [], n => if substr.isPrefixOf [] then (n : Int) else -1
  | c :: cs, n => if substr.isPrefixOf (c :: cs) then (n : Int) else indexFrom substr cs (n + 1)

/-- The function `strings.Index`: the offset of the first instance of `substr`
in `s`, or `-1` when there is none. -/
def Index (s substr : String) : Int := indexFrom substr.data s.data 0

/-- The function `strings.Contains`, which is `Index(s, substr) >= 0`. -/
def Contains (s substr : String) : Bool := decide (0 ≤ Index s substr)

/-- The function `unicode.IsSpace`: the code points with the Unicode property
`White_Space`. -/
def IsSpace (r : Char) : Bool :=
  let n := r.toNat
  (0x09 ≤ n && n ≤ 0x0d) || n == 0x20 || n == 0x85 || n == 0xa0 || n == 0x1680 ||
  (0x2000 ≤ n && n ≤ 0x200a) || n == 0x2028 || n == 0x2029 || n == 0x202f ||
  n == 0x205f || n == 0x3000

/-- The function `strings.TrimSpace`: `s` without its leading and trailing
white space. -/
def TrimSpace (s : String) : String :=
  ⟨((s.data.dropWhile IsSpace).reverse.dropWhile IsSpace).reverse⟩

/-! ## The provider -/

/-- The constructor `New` of `main.go`. -/
def New : LinuxProvider :=
  { SSHConfigPath := "/etc/ssh/sshd_config"
    IPForwardPath := "/proc/sys/net/ipv4/ip_forward" }

/-- The method `Info` of `main.go`. -/
def Info (_p : LinuxProvider) : PluginInfo :=
  { ID := "provider-linux"
    Name := "Linux Security Auditor"
    Version := "0.1.0"
    Description := "Audits SSH, Firewall and Kernel security settings"
    Author := "GOHL Core" }

/-- The function `boolToScore` of `main.go`. -/
def boolToScore (passed : Bool) (max : Int) : Int :=
  if passed then max else 0

/-- The method `Analyze` of `main.go`.  The result is the pair of the returned
report pointer and the returned error. -/
def Analyze (p : LinuxProvider) (_ctx : Context) (_config : Options) (fs : FileSystem) :
    Option ScanReport × Option String :=
  let checks : List CheckResult := []
  let checks :=
    match ReadFile fs p.SSHConfigPath with
    | .ok sshContent =>
      let content := sshContent
      let hasNoRoot := Contains content "PermitRootLogin no"
      let checks := checks ++ [{
        ID := "LNX-SSH-ROOT"
        Name := "SSH Root Login Disabled"
        Description := "Checking if direct root login is disabled in sshd_config"
        Passed := hasNoRoot
        Score := boolToScore hasNoRoot 20
        MaxScore := 20
        Remediation := "Set 'PermitRootLogin no' in \"" ++ p.SSHConfigPath ++ "\" and restart sshd." }]
      let hasNoPass := Contains content "PasswordAuthentication no"
      checks ++ [{
        ID := "LNX-SSH-PASS"
        Name := "SSH Key-Only Auth"
        Description := "Checking if PasswordAuthentication is disabled"
        Passed := hasNoPass
        Score := boolToScore hasNoPass 15
        MaxScore := 15
        Remediation := "Use SSH keys! Set 'PasswordAuthentication no' in sshd_config." }]
    | .error err =>
      checks ++ [{
        ID := "LNX-SSH-READ"
        Name := "Read SSH Config"
        Description := "Attempting to read " ++ p.SSHConfigPath
        Passed := false
        Score := 0
        MaxScore := 0
        Remediation := "Run GOHL with 'sudo' to scan protected config files."
        Error := err }]
  let checks :=
    match ReadFile fs p.IPForwardPath with
    | .ok fwdContent =>
      let val := TrimSpace fwdContent
      let isDisabled := decide (val = "0")
      checks ++ [{
        ID := "LNX-NET-FWD"
        Name := "IP Forwarding Disabled"
        Description := "Checking if kernel IP forwarding is off (0)"
        Passed := isDisabled
        Score := boolToScore isDisabled 10
        MaxScore := 10
        Remediation := "Set net.ipv4.ip_forward=0 in /etc/sysctl.conf" }]
    | .error _ => checks
  (some { PluginID := "provider-linux", Checks := checks }, none)

/-! ## Projections of a report used to state the properties -/

/-- The findings of the returned report; the empty list for a nil report. -/
def findings (r : Option ScanReport × Option String) : List CheckResult :=
  match r.1 with
  | some rep => rep.Checks
  | none => []

/-- The sequence of finding identifiers of the returned report. -/
def findingIDs (r : Option ScanReport × Option String) : List String :=
  (findings r).map (fun c => c.ID)

/-- The findings for the forwarding check: those identified `LNX-NET-FWD`. -/
def forwardingPart (r : Option ScanReport × Option String) : List CheckResult :=
  (findings r).filter (fun c => c.ID == "LNX-NET-FWD")

/-- The findings derived from the SSH artifact: root login, password
authentication and the read failure. -/
def sshPart (r : Option ScanReport × Option String) : List CheckResult :=
  (findings r).filter
    (fun c => c.ID == "LNX-SSH-ROOT" || c.ID == "LNX-SSH-PASS" || c.ID == "LNX-SSH-READ")

/-- The identifier, outcome, score and weight of a finding. -/
def summary (c : CheckResult) : String × Bool × Int × Int :=
  (c.ID, c.Passed, c.Score, c.MaxScore)

/-- The sum of the scores of the findings of a report. -/
def scoreSum (r : Option ScanReport × Option String) : Int :=
  ((findings r).map (fun c => c.Score)).sum

/-- The sum of the maximum scores of the findings of a report. -/
def maxScoreSum (r : Option ScanReport × Option String) : Int :=
  ((findings r).map (fun c => c.MaxScore)).sum

/-- The offsets of `s` at which an occurrence of `substr` starts. -/
def occurrences (s substr : String) : List Nat :=
  (List.range (s.data.length + 1)).filter (fun i => substr.data.isPrefixOf (s.data.drop i))

/-! ## Sample inputs -/

/-- The configuration of `TestAnalyze_SecureSystem`. -/
def secureSSH : String :=
  "\n# This is a test config\nPermitRootLogin no\nPasswordAuthentication no\n"

/-- The configuration of `TestAnalyze_InsecureSystem`. -/
def insecureSSH : String :=
  "\nPermitRootLogin yes\nPasswordAuthentication yes\n"

/-- A provider with the two paths of a test directory. -/
def testProvider : LinuxProvider :=
  { SSHConfigPath := "/tmp/t/sshd_config", IPForwardPath := "/tmp/t/ip_forward" }

/-- A file system holding the two artifacts of `testProvider` with the given
read results; every other path does not resolve. -/
def testFS (ssh fwd : ReadResult) : FileSystem := fun path =>
  if path = "/tmp/t/sshd_config" then ssh
  else if path = "/tmp/t/ip_forward" then fwd
  else .error ("open " ++ path ++ ": no such file or directory")

/-- A file system in which every path does not resolve, except the two
artifacts of `testProvider`, which hold the given read results and are looked
up in the other order. -/
def otherFS (ssh fwd : ReadResult) : FileSystem := fun path =>
  if path = "/tmp/t/ip_forward" then fwd
  else if path = "/tmp/t/sshd_config" then ssh
  else .error "permission denied"

/-- The failure reason of a path that does not resolve. -/
def missingSSH : String := "open /tmp/t/sshd_config: no such file or directory"

/-- The failure reason of the forwarding path when it does not resolve. -/
def missingFwd : String := "open /tmp/t/ip_forward: no such file or directory"

/-- The finding that `Analyze` substitutes for the SSH checks of `testProvider`
when the read fails with `missingSSH`. -/
def readFailure : CheckResult :=
  { ID := "LNX-SSH-READ"
    Name := "Read SSH Config"
    Description := "Attempting to read /tmp/t/sshd_config"
    Passed := false
    Score := 0
    MaxScore := 0
    Remediation := "Run GOHL with 'sudo' to scan protected config files."
    Error := missingSSH }

/-- The forwarding finding of a report when the forwarding value is `0`. -/
def forwardingOff : CheckResult :=
  { ID := "LNX-NET-FWD"
    Name := "IP Forwarding Disabled"
    Description := "Checking if kernel IP forwarding is off (0)"
    Passed := true
    Score := 10
    MaxScore := 10
    Remediation := "Set net.ipv4.ip_forward=0 in /etc/sysctl.conf" }

/-- The root login finding of `testProvider` when the directive is absent. -/
def rootLoginOpen : CheckResult :=
  { ID := "LNX-SSH-ROOT"
    Name := "SSH Root Login Disabled"
    Description := "Checking if direct root login is disabled in sshd_config"
    Passed := false
    Score := 0
    MaxScore := 20
    Remediation := "Set 'PermitRootLogin no' in \"/tmp/t/sshd_config\" and restart sshd." }

/-- An SSH configuration with the root login directive only. -/
def rootOnlySSH : String :=
  "PermitRootLogin no\nPasswordAuthentication yes\n"

/-- An SSH configuration with the password authentication directive only. -/
def passOnlySSH : String :=
  "PermitRootLogin yes\nPasswordAuthentication no\n"

/-- An SSH configuration whose single line is a comment. -/
def commentedSSH : String :=
  "#PermitRootLogin no\n"

/-- An SSH configuration that permits root login on its first line and holds
the text `PermitRootLogin no` on a later line. -/
def overriddenSSH : String :=
  "PermitRootLogin yes\nPermitRootLogin no\n"

/-- A file system in which the default paths of `New` hold a secure system and
the paths of `testProvider` an insecure one. -/
def splitFS : FileSystem := fun path =>
  if path = "/etc/ssh/sshd_config" then .ok secureSSH
  else if path = "/proc/sys/net/ipv4/ip_forward" then .ok "0\n"
  else if path = "/tmp/t/sshd_config" then .ok insecureSSH
  else if path = "/tmp/t/ip_forward" then .ok "1\n"
  else .error ("open " ++ path ++ ": no such file or directory")

/-- The root login finding of `testProvider` when the directive is present. -/
def rootLoginClosed : CheckResult :=
  { ID := "LNX-SSH-ROOT"
    Name := "SSH Root Login Disabled"
    Description := "Checking if direct root login is disabled in sshd_config"
    Passed := true
    Score := 20
    MaxScore := 20
    Remediation := "Set 'PermitRootLogin no' in \"/tmp/t/sshd_config\" and restart sshd." }

/-! ## Lemmas on the library functions -/

theorem indexFrom_nonneg_iff (substr s : List Char) (n : Nat) :
    0 ≤ indexFrom substr s n ↔ substr <:+: s := by
  induction s generalizing n with
  | nil =>
    cases substr <;> simp [indexFrom, List.isPrefixOf]
  | cons c cs ih =>
    unfold indexFrom
    by_cases hp : substr.isPrefixOf (c :: cs) = true
    · have hpre : substr <+: c :: cs := List.isPrefixOf_iff_prefix.mp hp
      simp only [hp, if_true]
      exact ⟨fun _ => hpre.isInfix, fun _ => Int.ofNat_nonneg n⟩
    · have hpre : ¬ substr <+: c :: cs := fun h => hp (List.isPrefixOf_iff_prefix.mpr h)
      simp only [hp, Bool.false_eq_true, if_false]
      rw [ih (n + 1), List.infix_cons_iff]
      exact ⟨Or.inr, fun h => h.resolve_left hpre⟩

/-- The function `Contains` decides the substring relation. -/
theorem Contains_iff (s substr : String) :
    Contains s substr = true ↔ substr.data <:+: s.data := by
  simp [Contains, Index, indexFrom_nonneg_iff]

theorem boolToScore_true (max : Int) : boolToScore true max = max := rfl

theorem boolToScore_false (max : Int) : boolToScore false max = 0 := rfl

/-- The trimmed value of `s` is `0` exactly when `s` is a `0` between two runs of
white space. -/
theorem TrimSpace_eq_zero_iff (s : String) :
    TrimSpace s = "0" ↔
      ∃ a b : List Char, (∀ x ∈ a, IsSpace x = true) ∧ (∀ x ∈ b, IsSpace x = true) ∧
        s.data = a ++ '0' :: b := by
  constructor
  · intro h
    have h1 : ((s.data.dropWhile IsSpace).reverse.dropWhile IsSpace).reverse = ['0'] :=
      congrArg String.data h
    have hd : (s.data.dropWhile IsSpace).reverse.dropWhile IsSpace = ['0'] := by
      simpa using congrArg List.reverse h1
    have e1 : (s.data.dropWhile IsSpace).reverse =
        (s.data.dropWhile IsSpace).reverse.takeWhile IsSpace ++ ['0'] := by
      conv_lhs => rw [← List.takeWhile_append_dropWhile IsSpace (s.data.dropWhile IsSpace).reverse]
      rw [hd]
    have e2 : s.data.dropWhile IsSpace =
        '0' :: ((s.data.dropWhile IsSpace).reverse.takeWhile IsSpace).reverse := by
      simpa using congrArg List.reverse e1
    refine ⟨s.data.takeWhile IsSpace,
      ((s.data.dropWhile IsSpace).reverse.takeWhile IsSpace).reverse,
      fun x hx => List.mem_takeWhile_imp hx,
      fun x hx => List.mem_takeWhile_imp (List.mem_reverse.mp hx), ?_⟩
    rw [← e2]
    exact (List.takeWhile_append_dropWhile IsSpace s.data).symm
  · rintro ⟨a, b, ha, hb, hs⟩
    apply String.ext
    show ((s.data.dropWhile IsSpace).reverse.dropWhile IsSpace).reverse = ['0']
    have hb2 : ∀ x ∈ b.reverse, IsSpace x = true := fun x hx => hb x (List.mem_reverse.mp hx)
    have h0 : ¬ IsSpace '0' = true := by decide
    rw [hs, List.dropWhile_append_of_pos ha, List.dropWhile_cons_of_neg h0, List.reverse_cons,
      List.dropWhile_append_of_pos hb2, List.dropWhile_cons_of_neg h0]
    rfl

/-- Text that contains `substr` still contains it after text is put before and
after it. -/
theorem Contains_append (a b c substr : String) (h : Contains b substr = true) :
    Contains (a ++ b ++ c) substr = true := by
  rw [Contains_iff] at h ⊢
  obtain ⟨s, t, hst⟩ := h
  refine ⟨a.data ++ s, t ++ c.data, ?_⟩
  simp only [String.data_append, ← hst, List.append_assoc]

/-! ## The report, case by case of the two read results -/

theorem Analyze_ok_ok (p : LinuxProvider) (ctx : Context) (config : Options) (fs : FileSystem)
    (ssh fwd : String) (hssh : ReadFile fs p.SSHConfigPath = .ok ssh)
    (hfwd : ReadFile fs p.IPForwardPath = .ok fwd) :
    Analyze p ctx config fs =
      (some { PluginID := "provider-linux", Checks := [
        { ID := "LNX-SSH-ROOT"
          Name := "SSH Root Login Disabled"
          Description := "Checking if direct root login is disabled in sshd_config"
          Passed := Contains ssh "PermitRootLogin no"
          Score := boolToScore (Contains ssh "PermitRootLogin no") 20
          MaxScore := 20
          Remediation :=
            "Set 'PermitRootLogin no' in \"" ++ p.SSHConfigPath ++ "\" and restart sshd." },
        { ID := "LNX-SSH-PASS"
          Name := "SSH Key-Only Auth"
          Description := "Checking if PasswordAuthentication is disabled"
          Passed := Contains ssh "PasswordAuthentication no"
          Score := boolToScore (Contains ssh "PasswordAuthentication no") 15
          MaxScore := 15
          Remediation := "Use SSH keys! Set 'PasswordAuthentication no' in sshd_config." },
        { ID := "LNX-NET-FWD"
          Name := "IP Forwarding Disabled"
          Description := "Checking if kernel IP forwarding is off (0)"
          Passed := decide (TrimSpace fwd = "0")
          Score := boolToScore (decide (TrimSpace fwd = "0")) 10
          MaxScore := 10
          Remediation := "Set net.ipv4.ip_forward=0 in /etc/sysctl.conf" }] }, none) := by
  simp only [Analyze, hssh, hfwd, List.nil_append, List.cons_append]

theorem Analyze_ok_error (p : LinuxProvider) (ctx : Context) (config : Options) (fs : FileSystem)
    (ssh reason : String) (hssh : ReadFile fs p.SSHConfigPath = .ok ssh)
    (hfwd : ReadFile fs p.IPForwardPath = .error reason) :
    Analyze p ctx config fs =
      (some { PluginID := "provider-linux", Checks := [
        { ID := "LNX-SSH-ROOT"
          Name := "SSH Root Login Disabled"
          Description := "Checking if direct root login is disabled in sshd_config"
          Passed := Contains ssh "PermitRootLogin no"
          Score := boolToScore (Contains ssh "PermitRootLogin no") 20
          MaxScore := 20
          Remediation :=
            "Set 'PermitRootLogin no' in \"" ++ p.SSHConfigPath ++ "\" and restart sshd." },
        { ID := "LNX-SSH-PASS"
          Name := "SSH Key-Only Auth"
          Description := "Checking if PasswordAuthentication is disabled"
          Passed := Contains ssh "PasswordAuthentication no"
          Score := boolToScore (Contains ssh "PasswordAuthentication no") 15
          MaxScore := 15
          Remediation := "Use SSH keys! Set 'PasswordAuthentication no' in sshd_config." }] },
       none) := by
  simp only [Analyze, hssh, hfwd, List.nil_append, List.cons_append]

theorem Analyze_error_ok (p : LinuxProvider) (ctx : Context) (config : Options) (fs : FileSystem)
    (reason fwd : String) (hssh : ReadFile fs p.SSHConfigPath = .error reason)
    (hfwd : ReadFile fs p.IPForwardPath = .ok fwd) :
    Analyze p ctx config fs =
      (some { PluginID := "provider-linux", Checks := [
        { ID := "LNX-SSH-READ"
          Name := "Read SSH Config"
          Description := "Attempting to read " ++ p.SSHConfigPath
          Passed := false
          Score := 0
          MaxScore := 0
          Remediation := "Run GOHL with 'sudo' to scan protected config files."
          Error := reason },
        { ID := "LNX-NET-FWD"
          Name := "IP Forwarding Disabled"
          Description := "Checking if kernel IP forwarding is off (0)"
          Passed := decide (TrimSpace fwd = "0")
          Score := boolToScore (decide (TrimSpace fwd = "0")) 10
          MaxScore := 10
          Remediation := "Set net.ipv4.ip_forward=0 in /etc/sysctl.conf" }] }, none) := by
  simp only [Analyze, hssh, hfwd, List.nil_append, List.cons_append]

theorem Analyze_error_error (p : LinuxProvider) (ctx : Context) (config : Options)
    (fs : FileSystem) (reason reason2 : String)
    (hssh : ReadFile fs p.SSHConfigPath = .error reason)
    (hfwd : ReadFile fs p.IPForwardPath = .error reason2) :
    Analyze p ctx config fs =
      (some { PluginID := "provider-linux", Checks := [
        { ID := "LNX-SSH-READ"
          Name := "Read SSH Config"
          Description := "Attempting to read " ++ p.SSHConfigPath
          Passed := false
          Score := 0
          MaxScore := 0
          Remediation := "Run GOHL with 'sudo' to scan protected config files."
          Error := reason }] }, none) := by
  simp only [Analyze, hssh, hfwd, List.nil_append, List.cons_append]

/-- In every report the score of a finding is `boolToScore` of its outcome and
its maximum score. -/
theorem score_eq_boolToScore (p : LinuxProvider) (ctx : Context) (config : Options)
    (fs : FileSystem) (c : CheckResult) (hc : c ∈ findings (Analyze p ctx config fs)) :
    c.Score = boolToScore c.Passed c.MaxScore := by
  cases hssh : ReadFile fs p.SSHConfigPath with
  | error reason =>
    cases hfwd : ReadFile fs p.IPForwardPath with
    | error reason2 =>
      rw [Analyze_error_error p ctx config fs reason reason2 hssh hfwd] at hc
      simp only [findings, List.mem_singleton] at hc
      subst hc
      rfl
    | ok fwd =>
      rw [Analyze_error_ok p ctx config fs reason fwd hssh hfwd] at hc
      simp only [findings, List.mem_cons, List.mem_singleton, List.not_mem_nil, or_false] at hc
      rcases hc with rfl | rfl <;> rfl
  | ok ssh =>
    cases hfwd : ReadFile fs p.IPForwardPath with
    | error reason2 =>
      rw [Analyze_ok_error p ctx config fs ssh reason2 hssh hfwd] at hc
      simp only [findings, List.mem_cons, List.mem_singleton, List.not_mem_nil, or_false] at hc
      rcases hc with rfl | rfl <;> rfl
    | ok fwd =>
      rw [Analyze_ok_ok p ctx config fs ssh fwd hssh hfwd] at hc
      simp only [findings, List.mem_cons, List.mem_singleton, List.not_mem_nil, or_false] at hc
      rcases hc with rfl | rfl | rfl <;> rfl

/-- The forwarding part of a report is determined by the read result of the
forwarding artifact. -/
theorem forwardingPart_Analyze (p : LinuxProvider) (ctx : Context) (config : Options)
    (fs : FileSystem) :
    forwardingPart (Analyze p ctx config fs) =
      match ReadFile fs p.IPForwardPath with
      | .ok fwd =>
        [{ ID := "LNX-NET-FWD"
           Name := "IP Forwarding Disabled"
           Description := "Checking if kernel IP forwarding is off (0)"
           Passed := decide (TrimSpace fwd = "0")
           Score := boolToScore (decide (TrimSpace fwd = "0")) 10
           MaxScore := 10
           Remediation := "Set net.ipv4.ip_forward=0 in /etc/sysctl.conf" }]
      | .error _ => [] := by
  cases hssh : ReadFile fs p.SSHConfigPath with
  | error reason =>
    cases hfwd : ReadFile fs p.IPForwardPath with
    | error reason2 =>
      rw [Analyze_error_error p ctx config fs reason reason2 hssh hfwd]
      simp [forwardingPart, findings, List.filter]
    | ok fwd =>
      rw [Analyze_error_ok p ctx config fs reason fwd hssh hfwd]
      simp [forwardingPart, findings, List.filter]
  | ok ssh =>
    cases hfwd : ReadFile fs p.IPForwardPath with
    | error reason2 =>
      rw [Analyze_ok_error p ctx config fs ssh reason2 hssh hfwd]
      simp [forwardingPart, findings, List.filter]
    | ok fwd =>
      rw [Analyze_ok_ok p ctx config fs ssh fwd hssh hfwd]
      simp [forwardingPart, findings, List.filter]

/-- The SSH part of a report is determined by the SSH path and the read result
of the SSH artifact. -/
theorem sshPart_Analyze (p : LinuxProvider) (ctx : Context) (config : Options)
    (fs : FileSystem) :
    sshPart (Analyze p ctx config fs) =
      match ReadFile fs p.SSHConfigPath with
      | .ok ssh =>
        [{ ID := "LNX-SSH-ROOT"
           Name := "SSH Root Login Disabled"
           Description := "Checking if direct root login is disabled in sshd_config"
           Passed := Contains ssh "PermitRootLogin no"
           Score := boolToScore (Contains ssh "PermitRootLogin no") 20
           MaxScore := 20
           Remediation :=
             "Set 'PermitRootLogin no' in \"" ++ p.SSHConfigPath ++ "\" and restart sshd." },
         { ID := "LNX-SSH-PASS"
           Name := "SSH Key-Only Auth"
           Description := "Checking if PasswordAuthentication is disabled"
           Passed := Contains ssh "PasswordAuthentication no"
           Score := boolToScore (Contains ssh "PasswordAuthentication no") 15
           MaxScore := 15
           Remediation := "Use SSH keys! Set 'PasswordAuthentication no' in sshd_config." }]
      | .error reason =>
        [{ ID := "LNX-SSH-READ"
           Name := "Read SSH Config"
           Description := "Attempting to read " ++ p.SSHConfigPath
           Passed := false
           Score := 0
           MaxScore := 0
           Remediation := "Run GOHL with 'sudo' to scan protected config files."
           Error := reason }] := by
  cases hssh : ReadFile fs p.SSHConfigPath with
  | error reason =>
    cases hfwd : ReadFile fs p.IPForwardPath with
    | error reason2 =>
      rw [Analyze_error_error p ctx config fs reason reason2 hssh hfwd]
      simp [sshPart, findings, List.filter]
    | ok fwd =>
      rw [Analyze_error_ok p ctx config fs reason fwd hssh hfwd]
      simp [sshPart, findings, List.filter]
  | ok ssh =>
    cases hfwd : ReadFile fs p.IPForwardPath with
    | error reason2 =>
      rw [Analyze_ok_error p ctx config fs ssh reason2 hssh hfwd]
      simp [sshPart, findings, List.filter]
    | ok fwd =>
      rw [Analyze_ok_ok p ctx config fs ssh fwd hssh hfwd]
      simp [sshPart, findings, List.filter]

/-- Every finding of a report is one of the four findings of the catalog,
built from the read result of its artifact. -/
theorem mem_findings_cases (p : LinuxProvider) (ctx : Context) (config : Options)
    (fs : FileSystem) (c : CheckResult) (hc : c ∈ findings (Analyze p ctx config fs)) :
    (∃ ssh, ReadFile fs p.SSHConfigPath = .ok ssh ∧ c =
      { ID := "LNX-SSH-ROOT"
        Name := "SSH Root Login Disabled"
        Description := "Checking if direct root login is disabled in sshd_config"
        Passed := Contains ssh "PermitRootLogin no"
        Score := boolToScore (Contains ssh "PermitRootLogin no") 20
        MaxScore := 20
        Remediation :=
          "Set 'PermitRootLogin no' in \"" ++ p.SSHConfigPath ++ "\" and restart sshd." }) ∨
    (∃ ssh, ReadFile fs p.SSHConfigPath = .ok ssh ∧ c =
      { ID := "LNX-SSH-PASS"
        Name := "SSH Key-Only Auth"
        Description := "Checking if PasswordAuthentication is disabled"
        Passed := Contains ssh "PasswordAuthentication no"
        Score := boolToScore (Contains ssh "PasswordAuthentication no") 15
        MaxScore := 15
        Remediation := "Use SSH keys! Set 'PasswordAuthentication no' in sshd_config." }) ∨
    (∃ reason, ReadFile fs p.SSHConfigPath = .error reason ∧ c =
      { ID := "LNX-SSH-READ"
        Name := "Read SSH Config"
        Description := "Attempting to read " ++ p.SSHConfigPath
        Passed := false
        Score := 0
        MaxScore := 0
        Remediation := "Run GOHL with 'sudo' to scan protected config files."
        Error := reason }) ∨
    (∃ fwd, ReadFile fs p.IPForwardPath = .ok fwd ∧ c =
      { ID := "LNX-NET-FWD"
        Name := "IP Forwarding Disabled"
        Description := "Checking if kernel IP forwarding is off (0)"
        Passed := decide (TrimSpace fwd = "0")
        Score := boolToScore (decide (TrimSpace fwd = "0")) 10
        MaxScore := 10
        Remediation := "Set net.ipv4.ip_forward=0 in /etc/sysctl.conf" }) := by
  cases hssh : ReadFile fs p.SSHConfigPath with
  | error reason =>
    cases hfwd : ReadFile fs p.IPForwardPath with
    | error reason2 =>
      rw [Analyze_error_error p ctx config fs reason reason2 hssh hfwd] at hc
      simp only [findings, List.mem_singleton] at hc
      exact Or.inr (Or.inr (Or.inl ⟨reason, rfl, hc⟩))
    | ok fwd =>
      rw [Analyze_error_ok p ctx config fs reason fwd hssh hfwd] at hc
      simp only [findings, List.mem_cons, List.mem_singleton, List.not_mem_nil, or_false] at hc
      rcases hc with h | h
      · exact Or.inr (Or.inr (Or.inl ⟨reason, rfl, h⟩))
      · exact Or.inr (Or.inr (Or.inr ⟨fwd, rfl, h⟩))
  | ok ssh =>
    cases hfwd : ReadFile fs p.IPForwardPath with
    | error reason2 =>
      rw [Analyze_ok_error p ctx config fs ssh reason2 hssh hfwd] at hc
      simp only [findings, List.mem_cons, List.mem_singleton, List.not_mem_nil, or_false] at hc
      rcases hc with h | h
      · exact Or.inl ⟨ssh, rfl, h⟩
      · exact Or.inr (Or.inl ⟨ssh, rfl, h⟩)
    | ok fwd =>
      rw [Analyze_ok_ok p ctx config fs ssh fwd hssh hfwd] at hc
      simp only [findings, List.mem_cons, List.mem_singleton, List.not_mem_nil, or_false] at hc
      rcases hc with h | h | h
      · exact Or.inl ⟨ssh, rfl, h⟩
      · exact Or.inr (Or.inl ⟨ssh, rfl, h⟩)
      · exact Or.inr (Or.inr (Or.inr ⟨fwd, rfl, h⟩))

/-! ## The claims -/

/-- C1: for every SSH content that contains both `PermitRootLogin no` and
`PasswordAuthentication no`, and every readable forwarding content whose
trimmed value is `0`, `Analyze` returns a report of exactly three findings, in
the order LNX-SSH-ROOT, LNX-SSH-PASS, LNX-NET-FWD, all passed, with scores 20,
15 and 10 equal to their maximum scores, 45 of 45 in total. -/
theorem secure_report (p : LinuxProvider) (ctx : Context) (config : Options) (fs : FileSystem)
    (ssh fwd : String)
    (hssh : ReadFile fs p.SSHConfigPath = .ok ssh)
    (hfwd : ReadFile fs p.IPForwardPath = .ok fwd)
    (hroot : "PermitRootLogin no".data <:+: ssh.data)
    (hpass : "PasswordAuthentication no".data <:+: ssh.data)
    (hzero : TrimSpace fwd = "0") :
    ∃ rep, Analyze p ctx config fs = (some rep, none) ∧
      rep.Checks.map summary =
        [("LNX-SSH-ROOT", true, 20, 20), ("LNX-SSH-PASS", true, 15, 15),
         ("LNX-NET-FWD", true, 10, 10)] ∧
      (rep.Checks.map (fun c => c.Score)).sum = 45 ∧
      (rep.Checks.map (fun c => c.MaxScore)).sum = 45 := by
  have hr : Contains ssh "PermitRootLogin no" = true := (Contains_iff _ _).mpr hroot
  have hp : Contains ssh "PasswordAuthentication no" = true := (Contains_iff _ _).mpr hpass
  refine ⟨_, Analyze_ok_ok p ctx config fs ssh fwd hssh hfwd, ?_, ?_, ?_⟩ <;>
    simp [summary, hr, hp, hzero, boolToScore]

/-- The secure system of `TestAnalyze_SecureSystem` meets the conditions of
`secure_report` and gets the report it states. -/
theorem secure_report_witness :
    ReadFile (testFS (.ok secureSSH) (.ok "0")) testProvider.SSHConfigPath = .ok secureSSH ∧
    ReadFile (testFS (.ok secureSSH) (.ok "0")) testProvider.IPForwardPath = .ok "0" ∧
    "PermitRootLogin no".data <:+: secureSSH.data ∧
    "PasswordAuthentication no".data <:+: secureSSH.data ∧
    TrimSpace "0" = "0" ∧
    ∃ rep, Analyze testProvider ⟨none⟩ none (testFS (.ok secureSSH) (.ok "0")) = (some rep, none) ∧
      rep.Checks.map summary =
        [("LNX-SSH-ROOT", true, 20, 20), ("LNX-SSH-PASS", true, 15, 15),
         ("LNX-NET-FWD", true, 10, 10)] ∧
      (rep.Checks.map (fun c => c.Score)).sum = 45 ∧
      (rep.Checks.map (fun c => c.MaxScore)).sum = 45 :=
  ⟨rfl, rfl, by decide, by decide, by decide,
    secure_report testProvider ⟨none⟩ none (testFS (.ok secureSSH) (.ok "0")) secureSSH "0"
      rfl rfl (by decide) (by decide) (by decide)⟩

/-- C2, as stated, fails: when the SSH artifact does not resolve, the report
holds a finding (LNX-SSH-READ) whose score equals its maximum score although it
did not pass. -/
theorem passed_iff_full_score_fails :
    ∃ c ∈ findings (Analyze testProvider ⟨none⟩ none
        (testFS (.error "open /tmp/t/sshd_config: no such file or directory") (.ok "0"))),
      ¬ (c.Passed = true ↔ c.Score = c.MaxScore) := by
  refine ⟨{ ID := "LNX-SSH-READ"
            Name := "Read SSH Config"
            Description := "Attempting to read /tmp/t/sshd_config"
            Passed := false
            Score := 0
            MaxScore := 0
            Remediation := "Run GOHL with 'sudo' to scan protected config files."
            Error := "open /tmp/t/sshd_config: no such file or directory" }, ?_, ?_⟩
  · decide
  · simp

/-- C2, amended: in every report of `Analyze`, a finding that passed has its
score equal to its maximum score and a finding that did not pass has score 0;
for every finding other than the read failure LNX-SSH-READ the converse holds
too (passed exactly when the score equals the maximum score), and the read
failure finding has not passed and has score 0 equal to its maximum score 0. -/
theorem passed_score_invariant (p : LinuxProvider) (ctx : Context) (config : Options)
    (fs : FileSystem) (c : CheckResult) (hc : c ∈ findings (Analyze p ctx config fs)) :
    (c.Passed = true → c.Score = c.MaxScore) ∧
    (c.Passed = false → c.Score = 0) ∧
    (c.ID ≠ "LNX-SSH-READ" → (c.Passed = true ↔ c.Score = c.MaxScore)) ∧
    (c.ID = "LNX-SSH-READ" → c.Passed = false ∧ c.Score = 0 ∧ c.MaxScore = 0) := by
  cases hssh : ReadFile fs p.SSHConfigPath with
  | error reason =>
    cases hfwd : ReadFile fs p.IPForwardPath with
    | error reason2 =>
      rw [Analyze_error_error p ctx config fs reason reason2 hssh hfwd] at hc
      simp only [findings, List.mem_singleton] at hc
      subst hc
      simp
    | ok fwd =>
      rw [Analyze_error_ok p ctx config fs reason fwd hssh hfwd] at hc
      simp only [findings, List.mem_cons, List.mem_singleton, List.not_mem_nil, or_false] at hc
      rcases hc with rfl | rfl
      · simp
      · cases decide (TrimSpace fwd = "0") <;> simp [boolToScore]
  | ok ssh =>
    cases hfwd : ReadFile fs p.IPForwardPath with
    | error reason2 =>
      rw [Analyze_ok_error p ctx config fs ssh reason2 hssh hfwd] at hc
      simp only [findings, List.mem_cons, List.mem_singleton, List.not_mem_nil, or_false] at hc
      rcases hc with rfl | rfl
      · cases Contains ssh "PermitRootLogin no" <;> simp [boolToScore]
      · cases Contains ssh "PasswordAuthentication no" <;> simp [boolToScore]
    | ok fwd =>
      rw [Analyze_ok_ok p ctx config fs ssh fwd hssh hfwd] at hc
      simp only [findings, List.mem_cons, List.mem_singleton, List.not_mem_nil, or_false] at hc
      rcases hc with rfl | rfl | rfl
      · cases Contains ssh "PermitRootLogin no" <;> simp [boolToScore]
      · cases Contains ssh "PasswordAuthentication no" <;> simp [boolToScore]
      · cases decide (TrimSpace fwd = "0") <;> simp [boolToScore]

/-- The forwarding finding of a run with forwarding value `0` and a missing SSH
artifact is a finding of the report and satisfies `passed_score_invariant`. -/
theorem passed_score_invariant_witness :
    forwardingOff ∈ findings (Analyze testProvider ⟨none⟩ none
        (testFS (.error missingSSH) (.ok "0\n"))) ∧
    ((forwardingOff.Passed = true → forwardingOff.Score = forwardingOff.MaxScore) ∧
     (forwardingOff.Passed = false → forwardingOff.Score = 0) ∧
     (forwardingOff.ID ≠ "LNX-SSH-READ" →
        (forwardingOff.Passed = true ↔ forwardingOff.Score = forwardingOff.MaxScore)) ∧
     (forwardingOff.ID = "LNX-SSH-READ" →
        forwardingOff.Passed = false ∧ forwardingOff.Score = 0 ∧ forwardingOff.MaxScore = 0)) :=
  ⟨by decide,
    passed_score_invariant testProvider ⟨none⟩ none (testFS (.error missingSSH) (.ok "0\n"))
      forwardingOff (by decide)⟩

/-- C3: whenever the SSH artifact cannot be read, whatever the reason and
whatever the forwarding artifact, the report holds exactly one finding with the
identifier LNX-SSH-READ; it has not passed, has score 0 and maximum score 0,
its error text is the reason of the read failure (so it is non-empty when the
reason is), and neither LNX-SSH-ROOT nor LNX-SSH-PASS is in the report. -/
theorem ssh_unreadable_substitute (p : LinuxProvider) (ctx : Context) (config : Options)
    (fs : FileSystem) (reason : String)
    (hssh : ReadFile fs p.SSHConfigPath = .error reason) :
    ∃ rep c, Analyze p ctx config fs = (some rep, none) ∧
      rep.Checks.filter (fun d => d.ID == "LNX-SSH-READ") = [c] ∧
      c.ID = "LNX-SSH-READ" ∧ c.Passed = false ∧ c.Score = 0 ∧ c.MaxScore = 0 ∧
      c.Error = reason ∧ (reason ≠ "" → c.Error ≠ "") ∧
      "LNX-SSH-ROOT" ∉ rep.Checks.map (fun d => d.ID) ∧
      "LNX-SSH-PASS" ∉ rep.Checks.map (fun d => d.ID) := by
  let readFinding : CheckResult :=
    { ID := "LNX-SSH-READ"
      Name := "Read SSH Config"
      Description := "Attempting to read " ++ p.SSHConfigPath
      Passed := false
      Score := 0
      MaxScore := 0
      Remediation := "Run GOHL with 'sudo' to scan protected config files."
      Error := reason }
  cases hfwd : ReadFile fs p.IPForwardPath with
  | error reason2 =>
    refine ⟨_, readFinding, Analyze_error_error p ctx config fs reason reason2 hssh hfwd, ?_⟩
    refine ⟨by simp [List.filter, readFinding], rfl, rfl, rfl, rfl, rfl, id, ?_, ?_⟩ <;> simp
  | ok fwd =>
    refine ⟨_, readFinding, Analyze_error_ok p ctx config fs reason fwd hssh hfwd, ?_⟩
    refine ⟨by simp [List.filter, readFinding], rfl, rfl, rfl, rfl, rfl, id, ?_, ?_⟩ <;> simp

/-- The run of `TestAnalyze_MissingFiles`, in which neither path resolves,
meets the condition of `ssh_unreadable_substitute`. -/
theorem ssh_unreadable_substitute_witness :
    ReadFile (testFS (.error missingSSH) (.error missingFwd)) testProvider.SSHConfigPath
      = .error missingSSH ∧
    ∃ rep c, Analyze testProvider ⟨none⟩ none (testFS (.error missingSSH) (.error missingFwd))
        = (some rep, none) ∧
      rep.Checks.filter (fun d => d.ID == "LNX-SSH-READ") = [c] ∧
      c.ID = "LNX-SSH-READ" ∧ c.Passed = false ∧ c.Score = 0 ∧ c.MaxScore = 0 ∧
      c.Error = missingSSH ∧ (missingSSH ≠ "" → c.Error ≠ "") ∧
      "LNX-SSH-ROOT" ∉ rep.Checks.map (fun d => d.ID) ∧
      "LNX-SSH-PASS" ∉ rep.Checks.map (fun d => d.ID) :=
  ⟨rfl, ssh_unreadable_substitute testProvider ⟨none⟩ none
    (testFS (.error missingSSH) (.error missingFwd)) missingSSH rfl⟩

/-- C4: whenever the forwarding artifact cannot be read and the SSH artifact is
readable, the findings of the report are exactly LNX-SSH-ROOT then
LNX-SSH-PASS, with no finding of any identifier for the forwarding check; and
when the SSH content contains both `PermitRootLogin no` and
`PasswordAuthentication no`, both findings passed. -/
theorem forwarding_unreadable_omitted (p : LinuxProvider) (ctx : Context) (config : Options)
    (fs : FileSystem) (ssh reason : String)
    (hssh : ReadFile fs p.SSHConfigPath = .ok ssh)
    (hfwd : ReadFile fs p.IPForwardPath = .error reason) :
    findingIDs (Analyze p ctx config fs) = ["LNX-SSH-ROOT", "LNX-SSH-PASS"] ∧
    ("PermitRootLogin no".data <:+: ssh.data → "PasswordAuthentication no".data <:+: ssh.data →
      (findings (Analyze p ctx config fs)).map (fun c => (c.ID, c.Passed)) =
        [("LNX-SSH-ROOT", true), ("LNX-SSH-PASS", true)]) := by
  rw [Analyze_ok_error p ctx config fs ssh reason hssh hfwd]
  refine ⟨by simp [findingIDs, findings], fun hroot hpass => ?_⟩
  have hr : Contains ssh "PermitRootLogin no" = true := (Contains_iff _ _).mpr hroot
  have hp : Contains ssh "PasswordAuthentication no" = true := (Contains_iff _ _).mpr hpass
  simp [findings, hr, hp]

/-- A secure SSH configuration with a forwarding path that does not resolve
meets the conditions of `forwarding_unreadable_omitted`. -/
theorem forwarding_unreadable_omitted_witness :
    ReadFile (testFS (.ok secureSSH) (.error missingFwd)) testProvider.SSHConfigPath
      = .ok secureSSH ∧
    ReadFile (testFS (.ok secureSSH) (.error missingFwd)) testProvider.IPForwardPath
      = .error missingFwd ∧
    "PermitRootLogin no".data <:+: secureSSH.data ∧
    "PasswordAuthentication no".data <:+: secureSSH.data ∧
    findingIDs (Analyze testProvider ⟨none⟩ none (testFS (.ok secureSSH) (.error missingFwd)))
      = ["LNX-SSH-ROOT", "LNX-SSH-PASS"] ∧
    (findings (Analyze testProvider ⟨none⟩ none
        (testFS (.ok secureSSH) (.error missingFwd)))).map (fun c => (c.ID, c.Passed)) =
      [("LNX-SSH-ROOT", true), ("LNX-SSH-PASS", true)] :=
  have h := forwarding_unreadable_omitted testProvider ⟨none⟩ none
    (testFS (.ok secureSSH) (.error missingFwd)) secureSSH missingFwd rfl rfl
  ⟨rfl, rfl, by decide, by decide, h.1, h.2 (by decide) (by decide)⟩

/-- C5: when the SSH artifact is unreadable or its content contains neither
`PermitRootLogin no` nor `PasswordAuthentication no`, and the forwarding
artifact is unreadable or its trimmed content is not `0`, every finding of the
report has not passed and has score 0. -/
theorem insecure_all_fail (p : LinuxProvider) (ctx : Context) (config : Options)
    (fs : FileSystem)
    (hssh : ∀ ssh, ReadFile fs p.SSHConfigPath = .ok ssh →
      ¬ "PermitRootLogin no".data <:+: ssh.data ∧
      ¬ "PasswordAuthentication no".data <:+: ssh.data)
    (hfwd : ∀ fwd, ReadFile fs p.IPForwardPath = .ok fwd → TrimSpace fwd ≠ "0")
    (c : CheckResult) (hc : c ∈ findings (Analyze p ctx config fs)) :
    c.Passed = false ∧ c.Score = 0 := by
  have key : c.Passed = false := by
    cases h1 : ReadFile fs p.SSHConfigPath with
    | error reason =>
      cases h2 : ReadFile fs p.IPForwardPath with
      | error reason2 =>
        rw [Analyze_error_error p ctx config fs reason reason2 h1 h2] at hc
        simp only [findings, List.mem_singleton] at hc
        subst hc
        rfl
      | ok fwd =>
        rw [Analyze_error_ok p ctx config fs reason fwd h1 h2] at hc
        simp only [findings, List.mem_cons, List.mem_singleton, List.not_mem_nil, or_false] at hc
        rcases hc with rfl | rfl
        · rfl
        · simpa using hfwd fwd h2
    | ok ssh =>
      have hr : Contains ssh "PermitRootLogin no" = false := by
        rw [← Bool.not_eq_true, Contains_iff]
        exact (hssh ssh h1).1
      have hp : Contains ssh "PasswordAuthentication no" = false := by
        rw [← Bool.not_eq_true, Contains_iff]
        exact (hssh ssh h1).2
      cases h2 : ReadFile fs p.IPForwardPath with
      | error reason2 =>
        rw [Analyze_ok_error p ctx config fs ssh reason2 h1 h2] at hc
        simp only [findings, List.mem_cons, List.mem_singleton, List.not_mem_nil, or_false] at hc
        rcases hc with rfl | rfl
        · exact hr
        · exact hp
      | ok fwd =>
        rw [Analyze_ok_ok p ctx config fs ssh fwd h1 h2] at hc
        simp only [findings, List.mem_cons, List.mem_singleton, List.not_mem_nil, or_false] at hc
        rcases hc with rfl | rfl | rfl
        · exact hr
        · exact hp
        · simpa using hfwd fwd h2
  refine ⟨key, ?_⟩
  rw [score_eq_boolToScore p ctx config fs c hc, key]
  rfl

/-- The insecure system of `TestAnalyze_InsecureSystem` meets the conditions of
`insecure_all_fail`, and its root login finding has not passed. -/
theorem insecure_all_fail_witness :
    (∀ ssh, ReadFile (testFS (.ok insecureSSH) (.ok "1")) testProvider.SSHConfigPath = .ok ssh →
      ¬ "PermitRootLogin no".data <:+: ssh.data ∧
      ¬ "PasswordAuthentication no".data <:+: ssh.data) ∧
    (∀ fwd, ReadFile (testFS (.ok insecureSSH) (.ok "1")) testProvider.IPForwardPath = .ok fwd →
      TrimSpace fwd ≠ "0") ∧
    rootLoginOpen ∈ findings (Analyze testProvider ⟨none⟩ none
      (testFS (.ok insecureSSH) (.ok "1"))) ∧
    (rootLoginOpen.Passed = false ∧ rootLoginOpen.Score = 0) :=
  have h1 : ∀ ssh,
      ReadFile (testFS (.ok insecureSSH) (.ok "1")) testProvider.SSHConfigPath = .ok ssh →
      ¬ "PermitRootLogin no".data <:+: ssh.data ∧
      ¬ "PasswordAuthentication no".data <:+: ssh.data := fun ssh h => by
    cases (show (Except.ok insecureSSH : ReadResult) = .ok ssh from h)
    decide
  have h2 : ∀ fwd,
      ReadFile (testFS (.ok insecureSSH) (.ok "1")) testProvider.IPForwardPath = .ok fwd →
      TrimSpace fwd ≠ "0" := fun fwd h => by
    cases (show (Except.ok "1" : ReadResult) = .ok fwd from h)
    decide
  ⟨h1, h2, by decide,
    insecure_all_fail testProvider ⟨none⟩ none (testFS (.ok insecureSSH) (.ok "1")) h1 h2
      rootLoginOpen (by decide)⟩

/-- C6: artifact failures do not cascade.  The forwarding part of the report is
the same for two runs with the same forwarding read result, whatever the
providers, options and SSH read results; the SSH part is the same for two runs
with the same SSH path and SSH read result, whatever the forwarding read
results; and an unreadable SSH artifact with a readable forwarding artifact
still yields the LNX-NET-FWD finding. -/
theorem failures_do_not_cascade (p₁ p₂ : LinuxProvider) (ctx₁ ctx₂ : Context)
    (config₁ config₂ : Options) (fs₁ fs₂ : FileSystem) :
    (ReadFile fs₁ p₁.IPForwardPath = ReadFile fs₂ p₂.IPForwardPath →
      forwardingPart (Analyze p₁ ctx₁ config₁ fs₁) =
        forwardingPart (Analyze p₂ ctx₂ config₂ fs₂)) ∧
    (p₁.SSHConfigPath = p₂.SSHConfigPath →
      ReadFile fs₁ p₁.SSHConfigPath = ReadFile fs₂ p₂.SSHConfigPath →
      sshPart (Analyze p₁ ctx₁ config₁ fs₁) = sshPart (Analyze p₂ ctx₂ config₂ fs₂)) ∧
    (∀ reason fwd, ReadFile fs₁ p₁.SSHConfigPath = .error reason →
      ReadFile fs₁ p₁.IPForwardPath = .ok fwd →
      "LNX-NET-FWD" ∈ findingIDs (Analyze p₁ ctx₁ config₁ fs₁) ∧
      (forwardingPart (Analyze p₁ ctx₁ config₁ fs₁)).length = 1) := by
  refine ⟨fun h => ?_, fun hp h => ?_, fun reason fwd h1 h2 => ?_⟩
  · rw [forwardingPart_Analyze, forwardingPart_Analyze, h]
  · rw [sshPart_Analyze, sshPart_Analyze, h, hp]
  · refine ⟨?_, ?_⟩
    · rw [Analyze_error_ok p₁ ctx₁ config₁ fs₁ reason fwd h1 h2]
      simp [findingIDs, findings]
    · rw [forwardingPart_Analyze, h2]
      rfl

/-- A run with a secure SSH configuration and a run whose SSH path does not
resolve, both with forwarding value `0`, have the same forwarding part, the
finding `forwardingOff`. -/
theorem failures_do_not_cascade_witness :
    forwardingPart (Analyze testProvider ⟨none⟩ none (testFS (.ok secureSSH) (.ok "0"))) =
      forwardingPart (Analyze testProvider ⟨none⟩ none (testFS (.error missingSSH) (.ok "0"))) ∧
    forwardingPart (Analyze testProvider ⟨none⟩ none (testFS (.error missingSSH) (.ok "0"))) =
      [forwardingOff] :=
  ⟨(failures_do_not_cascade testProvider testProvider ⟨none⟩ ⟨none⟩ none none
      (testFS (.ok secureSSH) (.ok "0")) (testFS (.error missingSSH) (.ok "0"))).1 rfl,
    by decide⟩

/-- C7: the sequence of finding identifiers is LNX-SSH-ROOT, LNX-SSH-PASS,
LNX-NET-FWD when both artifacts are readable; LNX-SSH-ROOT, LNX-SSH-PASS when
only the SSH artifact is; LNX-SSH-READ, LNX-NET-FWD when only the forwarding
artifact is; and LNX-SSH-READ alone when neither is. -/
theorem finding_order (p : LinuxProvider) (ctx : Context) (config : Options)
    (fs : FileSystem) :
    findingIDs (Analyze p ctx config fs) =
      match ReadFile fs p.SSHConfigPath, ReadFile fs p.IPForwardPath with
      | .ok _, .ok _ => ["LNX-SSH-ROOT", "LNX-SSH-PASS", "LNX-NET-FWD"]
      | .ok _, .error _ => ["LNX-SSH-ROOT", "LNX-SSH-PASS"]
      | .error _, .ok _ => ["LNX-SSH-READ", "LNX-NET-FWD"]
      | .error _, .error _ => ["LNX-SSH-READ"] := by
  cases hssh : ReadFile fs p.SSHConfigPath with
  | error reason =>
    cases hfwd : ReadFile fs p.IPForwardPath with
    | error reason2 =>
      rw [Analyze_error_error p ctx config fs reason reason2 hssh hfwd]
      rfl
    | ok fwd =>
      rw [Analyze_error_ok p ctx config fs reason fwd hssh hfwd]
      rfl
  | ok ssh =>
    cases hfwd : ReadFile fs p.IPForwardPath with
    | error reason2 =>
      rw [Analyze_ok_error p ctx config fs ssh reason2 hssh hfwd]
      rfl
    | ok fwd =>
      rw [Analyze_ok_ok p ctx config fs ssh fwd hssh hfwd]
      rfl

/-- C8: `Analyze` never returns a fatal error.  For every provider, context,
options map (the nil map included) and file system it returns a report that is
not nil together with a nil error; a failure to read the SSH artifact is
recorded as the error text of a finding and a failure to read the forwarding
artifact by the absence of the LNX-NET-FWD finding. -/
theorem never_fatal (p : LinuxProvider) (ctx : Context) (config : Options)
    (fs : FileSystem) :
    (Analyze p ctx config fs).2 = none ∧
    ∃ rep, (Analyze p ctx config fs).1 = some rep ∧
      (∀ reason, ReadFile fs p.SSHConfigPath = .error reason →
        ∃ c ∈ rep.Checks, c.ID = "LNX-SSH-READ" ∧ c.Error = reason) ∧
      (∀ reason, ReadFile fs p.IPForwardPath = .error reason →
        "LNX-NET-FWD" ∉ rep.Checks.map (fun c => c.ID)) := by
  cases hssh : ReadFile fs p.SSHConfigPath with
  | error reason =>
    cases hfwd : ReadFile fs p.IPForwardPath with
    | error reason2 =>
      rw [Analyze_error_error p ctx config fs reason reason2 hssh hfwd]
      refine ⟨rfl, _, rfl, ?_, ?_⟩
      · intro r hr
        cases hr
        simp
      · simp
    | ok fwd =>
      rw [Analyze_error_ok p ctx config fs reason fwd hssh hfwd]
      refine ⟨rfl, _, rfl, ?_, ?_⟩
      · intro r hr
        cases hr
        simp
      · intro r hr
        cases hr
  | ok ssh =>
    cases hfwd : ReadFile fs p.IPForwardPath with
    | error reason2 =>
      rw [Analyze_ok_error p ctx config fs ssh reason2 hssh hfwd]
      refine ⟨rfl, _, rfl, ?_, ?_⟩
      · intro r hr
        cases hr
      · simp
    | ok fwd =>
      rw [Analyze_ok_ok p ctx config fs ssh fwd hssh hfwd]
      refine ⟨rfl, _, rfl, ?_, ?_⟩
      · intro r hr
        cases hr
      · intro r hr
        cases hr

/-- C9: the report is a function of the provider and the two read results.  Two
calls of `Analyze` on the same provider whose file systems give the same read
results for the two artifacts return equal results, whatever the two contexts
and the two options maps are. -/
theorem report_deterministic (p : LinuxProvider) (ctx₁ ctx₂ : Context)
    (config₁ config₂ : Options) (fs₁ fs₂ : FileSystem)
    (hssh : ReadFile fs₁ p.SSHConfigPath = ReadFile fs₂ p.SSHConfigPath)
    (hfwd : ReadFile fs₁ p.IPForwardPath = ReadFile fs₂ p.IPForwardPath) :
    Analyze p ctx₁ config₁ fs₁ = Analyze p ctx₂ config₂ fs₂ := by
  simp only [Analyze, hssh, hfwd]

/-- Two calls on `testProvider`, one with the nil map and a live context, one
with a map holding an entry and a cancelled context, over two file systems that
differ outside the two artifacts, meet the conditions of
`report_deterministic`. -/
theorem report_deterministic_witness :
    ReadFile (testFS (.ok secureSSH) (.ok "1")) testProvider.SSHConfigPath =
      ReadFile (otherFS (.ok secureSSH) (.ok "1")) testProvider.SSHConfigPath ∧
    ReadFile (testFS (.ok secureSSH) (.ok "1")) testProvider.IPForwardPath =
      ReadFile (otherFS (.ok secureSSH) (.ok "1")) testProvider.IPForwardPath ∧
    Analyze testProvider ⟨none⟩ none (testFS (.ok secureSSH) (.ok "1")) =
      Analyze testProvider ⟨some "context canceled"⟩ (some [("verbose", "true")])
        (otherFS (.ok secureSSH) (.ok "1")) :=
  ⟨rfl, rfl,
    report_deterministic testProvider ⟨none⟩ ⟨some "context canceled"⟩ none
      (some [("verbose", "true")]) (testFS (.ok secureSSH) (.ok "1"))
      (otherFS (.ok secureSSH) (.ok "1")) rfl rfl⟩

/-- C10: scoring is binary.  `boolToScore passed max` is `max` when `passed` is
true and 0 when it is false, for every integer `max`; so in every report a
finding that passed has its score equal to its maximum score, a finding that
did not pass has score 0, and every score is 0 or the maximum score. -/
theorem binary_scoring :
    (∀ max : Int, boolToScore true max = max ∧ boolToScore false max = 0) ∧
    (∀ (p : LinuxProvider) (ctx : Context) (config : Options) (fs : FileSystem),
      ∀ c ∈ findings (Analyze p ctx config fs),
        (c.Passed = true → c.Score = c.MaxScore) ∧
        (c.Passed = false → c.Score = 0) ∧
        (c.Score = 0 ∨ c.Score = c.MaxScore)) := by
  refine ⟨fun max => ⟨rfl, rfl⟩, fun p ctx config fs c hc => ?_⟩
  have h := score_eq_boolToScore p ctx config fs c hc
  refine ⟨fun hp => ?_, fun hp => ?_, ?_⟩
  · rw [h, hp]
    rfl
  · rw [h, hp]
    rfl
  · cases hp : c.Passed
    · left
      rw [h, hp]
      rfl
    · right
      rw [h, hp]
      rfl

/-- In the report of the insecure system the root login finding, which did not
pass, has score 0 of 20: `binary_scoring` at a finding of a report. -/
theorem binary_scoring_witness :
    rootLoginOpen ∈ findings (Analyze testProvider ⟨none⟩ none
      (testFS (.ok insecureSSH) (.error missingFwd))) ∧
    ((rootLoginOpen.Passed = true → rootLoginOpen.Score = rootLoginOpen.MaxScore) ∧
     (rootLoginOpen.Passed = false → rootLoginOpen.Score = 0) ∧
     (rootLoginOpen.Score = 0 ∨ rootLoginOpen.Score = rootLoginOpen.MaxScore)) :=
  ⟨by decide,
    binary_scoring.2 testProvider ⟨none⟩ none (testFS (.ok insecureSSH) (.error missingFwd))
      rootLoginOpen (by decide)⟩

/-- C11: for every readable SSH content, the SSH part of the report is the
LNX-SSH-ROOT finding, with maximum score 20 and passed exactly when the content
contains `PermitRootLogin no`, followed by the LNX-SSH-PASS finding, with
maximum score 15 and passed exactly when the content contains
`PasswordAuthentication no`; a content with exactly one of the two directives
gets one passing and one failing finding, with scores 20 and 0, or 0 and 15. -/
theorem ssh_checks_by_content (p : LinuxProvider) (ctx : Context) (config : Options)
    (fs : FileSystem) (ssh : String) (hssh : ReadFile fs p.SSHConfigPath = .ok ssh) :
    ∃ r s, sshPart (Analyze p ctx config fs) = [r, s] ∧
      r.ID = "LNX-SSH-ROOT" ∧ r.MaxScore = 20 ∧
      (r.Passed = true ↔ "PermitRootLogin no".data <:+: ssh.data) ∧
      s.ID = "LNX-SSH-PASS" ∧ s.MaxScore = 15 ∧
      (s.Passed = true ↔ "PasswordAuthentication no".data <:+: ssh.data) ∧
      ("PermitRootLogin no".data <:+: ssh.data →
        ¬ "PasswordAuthentication no".data <:+: ssh.data →
        r.Passed = true ∧ r.Score = 20 ∧ s.Passed = false ∧ s.Score = 0) ∧
      (¬ "PermitRootLogin no".data <:+: ssh.data →
        "PasswordAuthentication no".data <:+: ssh.data →
        r.Passed = false ∧ r.Score = 0 ∧ s.Passed = true ∧ s.Score = 15) := by
  rw [sshPart_Analyze, hssh]
  refine ⟨_, _, rfl, rfl, rfl, Contains_iff _ _, rfl, rfl, Contains_iff _ _, ?_, ?_⟩
  · intro hr hp
    have h1 : Contains ssh "PermitRootLogin no" = true := (Contains_iff _ _).mpr hr
    have h2 : Contains ssh "PasswordAuthentication no" = false := by
      rw [← Bool.not_eq_true, Contains_iff]
      exact hp
    simp [h1, h2, boolToScore]
  · intro hr hp
    have h1 : Contains ssh "PermitRootLogin no" = false := by
      rw [← Bool.not_eq_true, Contains_iff]
      exact hr
    have h2 : Contains ssh "PasswordAuthentication no" = true := (Contains_iff _ _).mpr hp
    simp [h1, h2, boolToScore]

/-- A configuration with the root login directive only meets the condition of
`ssh_checks_by_content`; its two findings score 20 and 0. -/
theorem ssh_checks_by_content_witness :
    ReadFile (testFS (.ok rootOnlySSH) (.ok "0")) testProvider.SSHConfigPath = .ok rootOnlySSH ∧
    "PermitRootLogin no".data <:+: rootOnlySSH.data ∧
    ¬ "PasswordAuthentication no".data <:+: rootOnlySSH.data ∧
    (sshPart (Analyze testProvider ⟨none⟩ none (testFS (.ok rootOnlySSH) (.ok "0")))).map summary
      = [("LNX-SSH-ROOT", true, 20, 20), ("LNX-SSH-PASS", false, 0, 15)] ∧
    ∃ r s, sshPart (Analyze testProvider ⟨none⟩ none (testFS (.ok rootOnlySSH) (.ok "0")))
        = [r, s] ∧
      r.ID = "LNX-SSH-ROOT" ∧ r.MaxScore = 20 ∧
      (r.Passed = true ↔ "PermitRootLogin no".data <:+: rootOnlySSH.data) ∧
      s.ID = "LNX-SSH-PASS" ∧ s.MaxScore = 15 ∧
      (s.Passed = true ↔ "PasswordAuthentication no".data <:+: rootOnlySSH.data) ∧
      ("PermitRootLogin no".data <:+: rootOnlySSH.data →
        ¬ "PasswordAuthentication no".data <:+: rootOnlySSH.data →
        r.Passed = true ∧ r.Score = 20 ∧ s.Passed = false ∧ s.Score = 0) ∧
      (¬ "PermitRootLogin no".data <:+: rootOnlySSH.data →
        "PasswordAuthentication no".data <:+: rootOnlySSH.data →
        r.Passed = false ∧ r.Score = 0 ∧ s.Passed = true ∧ s.Score = 15) :=
  ⟨rfl, by decide, by decide, by decide,
    ssh_checks_by_content testProvider ⟨none⟩ none (testFS (.ok rootOnlySSH) (.ok "0"))
      rootOnlySSH rfl⟩

/-- C12: for every readable forwarding content, the forwarding part of the
report is the single finding LNX-NET-FWD with maximum score 10, passed exactly
when the trimmed content is `0`, that is when the content is a `0` between two
runs of white space, with score 10 when passed and 0 otherwise; the contents
`0`, `0\n` and ` 0 ` pass with score 10 and the contents `1`, the empty string,
`00` and `0 0` fail with score 0. -/
theorem forwarding_check_by_content (p : LinuxProvider) (ctx : Context) (config : Options)
    (fs : FileSystem) (fwd : String) (hfwd : ReadFile fs p.IPForwardPath = .ok fwd) :
    ∃ f, forwardingPart (Analyze p ctx config fs) = [f] ∧
      f.ID = "LNX-NET-FWD" ∧ f.MaxScore = 10 ∧
      (f.Passed = true ↔ TrimSpace fwd = "0") ∧
      (f.Passed = true ↔
        ∃ a b : List Char, (∀ x ∈ a, IsSpace x = true) ∧ (∀ x ∈ b, IsSpace x = true) ∧
          fwd.data = a ++ '0' :: b) ∧
      (f.Passed = true → f.Score = 10) ∧ (f.Passed = false → f.Score = 0) ∧
      (fwd ∈ ["0", "0\n", " 0 "] → f.Passed = true ∧ f.Score = 10) ∧
      (fwd ∈ ["1", "", "00", "0 0"] → f.Passed = false ∧ f.Score = 0) := by
  rw [forwardingPart_Analyze, hfwd]
  refine ⟨_, rfl, rfl, rfl, decide_eq_true_iff, ?_, ?_, ?_, ?_, ?_⟩
  · exact decide_eq_true_iff.trans (TrimSpace_eq_zero_iff fwd)
  · intro h
    have h1 : decide (TrimSpace fwd = "0") = true := h
    simp [h1, boolToScore]
  · intro h
    have h1 : decide (TrimSpace fwd = "0") = false := h
    simp [h1, boolToScore]
  · intro h
    simp only [List.mem_cons, List.mem_singleton, List.not_mem_nil, or_false] at h
    rcases h with rfl | rfl | rfl <;> decide
  · intro h
    simp only [List.mem_cons, List.mem_singleton, List.not_mem_nil, or_false] at h
    rcases h with rfl | rfl | rfl | rfl <;> decide

/-- The forwarding content `0` followed by a line feed, as the kernel gives
it, meets the condition of `forwarding_check_by_content`; its finding is
`forwardingOff`. -/
theorem forwarding_check_by_content_witness :
    ReadFile (testFS (.ok secureSSH) (.ok "0\n")) testProvider.IPForwardPath = .ok "0\n" ∧
    forwardingPart (Analyze testProvider ⟨none⟩ none (testFS (.ok secureSSH) (.ok "0\n")))
      = [forwardingOff] ∧
    ∃ f, forwardingPart (Analyze testProvider ⟨none⟩ none (testFS (.ok secureSSH) (.ok "0\n")))
        = [f] ∧
      f.ID = "LNX-NET-FWD" ∧ f.MaxScore = 10 ∧
      (f.Passed = true ↔ TrimSpace "0\n" = "0") ∧
      (f.Passed = true ↔
        ∃ a b : List Char, (∀ x ∈ a, IsSpace x = true) ∧ (∀ x ∈ b, IsSpace x = true) ∧
          "0\n".data = a ++ '0' :: b) ∧
      (f.Passed = true → f.Score = 10) ∧ (f.Passed = false → f.Score = 0) ∧
      ("0\n" ∈ ["0", "0\n", " 0 "] → f.Passed = true ∧ f.Score = 10) ∧
      ("0\n" ∈ ["1", "", "00", "0 0"] → f.Passed = false ∧ f.Score = 0) :=
  ⟨rfl, by decide,
    forwarding_check_by_content testProvider ⟨none⟩ none (testFS (.ok secureSSH) (.ok "0\n"))
      "0\n" rfl⟩

/-- C13: the maximum score of a finding depends on its identifier only: in
every report LNX-SSH-ROOT has maximum score 20, LNX-SSH-PASS 15, LNX-NET-FWD 10
and LNX-SSH-READ 0, and every finding has one of these identifiers.  A finding
other than LNX-SSH-READ has an empty error text; LNX-SSH-READ is the only
finding with maximum score 0 and its error text is the reason of the failed
read; so, read failures having a reason that is not empty, a finding has
maximum score 0 and an error text exactly when it is LNX-SSH-READ. -/
theorem maxScore_by_identifier (p : LinuxProvider) (ctx : Context) (config : Options)
    (fs : FileSystem) (c : CheckResult) (hc : c ∈ findings (Analyze p ctx config fs)) :
    c.ID ∈ ["LNX-SSH-ROOT", "LNX-SSH-PASS", "LNX-SSH-READ", "LNX-NET-FWD"] ∧
    (c.ID = "LNX-SSH-ROOT" → c.MaxScore = 20) ∧
    (c.ID = "LNX-SSH-PASS" → c.MaxScore = 15) ∧
    (c.ID = "LNX-NET-FWD" → c.MaxScore = 10) ∧
    (c.ID = "LNX-SSH-READ" → c.MaxScore = 0) ∧
    (c.ID ≠ "LNX-SSH-READ" → c.Error = "") ∧
    (c.MaxScore = 0 ↔ c.ID = "LNX-SSH-READ") ∧
    (c.ID = "LNX-SSH-READ" → ReadFile fs p.SSHConfigPath = .error c.Error) ∧
    ((∀ reason, ReadFile fs p.SSHConfigPath = .error reason → reason ≠ "") →
      (c.MaxScore = 0 ∧ c.Error ≠ "" ↔ c.ID = "LNX-SSH-READ")) := by
  rcases mem_findings_cases p ctx config fs c hc with
    ⟨ssh, _, rfl⟩ | ⟨ssh, _, rfl⟩ | ⟨reason, hr, rfl⟩ | ⟨fwd, _, rfl⟩
  · simp
  · simp
  · simp only [hr]
    refine ⟨by simp, by simp, by simp, by simp, by simp, by simp, by simp, by simp, ?_⟩
    intro h
    simpa using h reason rfl
  · simp

/-- The read failure finding of a run in which the SSH path does not resolve is
a finding of the report, its read failure has a reason that is not empty, and
it has maximum score 0 and an error text. -/
theorem maxScore_by_identifier_witness :
    readFailure ∈ findings (Analyze testProvider ⟨none⟩ none
      (testFS (.error missingSSH) (.ok "1\n"))) ∧
    (∀ reason, ReadFile (testFS (.error missingSSH) (.ok "1\n")) testProvider.SSHConfigPath
      = .error reason → reason ≠ "") ∧
    (readFailure.MaxScore = 0 ∧ readFailure.Error ≠ "" ↔ readFailure.ID = "LNX-SSH-READ") ∧
    readFailure.MaxScore = 0 ∧ readFailure.Error = missingSSH :=
  have hne : ∀ reason,
      ReadFile (testFS (.error missingSSH) (.ok "1\n")) testProvider.SSHConfigPath
        = .error reason → reason ≠ "" := fun reason h => by
    cases (show (Except.error missingSSH : ReadResult) = .error reason from h)
    decide
  ⟨by decide, hne,
    (maxScore_by_identifier testProvider ⟨none⟩ none (testFS (.error missingSSH) (.ok "1\n"))
      readFailure (by decide)).2.2.2.2.2.2.2.2 hne,
    rfl, rfl⟩

/-- C14: the report is never empty.  It holds at least one and at most three
findings, and when neither artifact can be read it consists of the single
finding LNX-SSH-READ, which carries the reason of the failed read. -/
theorem report_never_empty (p : LinuxProvider) (ctx : Context) (config : Options)
    (fs : FileSystem) :
    1 ≤ (findings (Analyze p ctx config fs)).length ∧
    (findings (Analyze p ctx config fs)).length ≤ 3 ∧
    (∀ reason reason2, ReadFile fs p.SSHConfigPath = .error reason →
      ReadFile fs p.IPForwardPath = .error reason2 →
      ∃ c, findings (Analyze p ctx config fs) = [c] ∧ c.ID = "LNX-SSH-READ" ∧
        c.Passed = false ∧ c.Error = reason) := by
  cases hssh : ReadFile fs p.SSHConfigPath with
  | error reason =>
    cases hfwd : ReadFile fs p.IPForwardPath with
    | error reason2 =>
      rw [Analyze_error_error p ctx config fs reason reason2 hssh hfwd]
      refine ⟨by simp [findings], by simp [findings], fun r r2 h1 _ => ?_⟩
      cases h1
      exact ⟨_, rfl, rfl, rfl, rfl⟩
    | ok fwd =>
      rw [Analyze_error_ok p ctx config fs reason fwd hssh hfwd]
      refine ⟨by simp [findings], by simp [findings], fun r r2 _ h2 => ?_⟩
      cases h2
  | ok ssh =>
    cases hfwd : ReadFile fs p.IPForwardPath with
    | error reason2 =>
      rw [Analyze_ok_error p ctx config fs ssh reason2 hssh hfwd]
      refine ⟨by simp [findings], by simp [findings], fun r r2 h1 _ => ?_⟩
      cases h1
    | ok fwd =>
      rw [Analyze_ok_ok p ctx config fs ssh fwd hssh hfwd]
      refine ⟨by simp [findings], by simp [findings], fun r r2 h1 _ => ?_⟩
      cases h1

/-- The run of `TestAnalyze_MissingFiles`, in which neither path resolves, has
the single finding `readFailure`. -/
theorem report_never_empty_witness :
    findings (Analyze testProvider ⟨none⟩ none (testFS (.error missingSSH) (.error missingFwd)))
      = [readFailure] ∧
    ∃ c, findings (Analyze testProvider ⟨none⟩ none
        (testFS (.error missingSSH) (.error missingFwd))) = [c] ∧
      c.ID = "LNX-SSH-READ" ∧ c.Passed = false ∧ c.Error = missingSSH :=
  ⟨by decide,
    (report_never_empty testProvider ⟨none⟩ none
      (testFS (.error missingSSH) (.error missingFwd))).2.2 missingSSH missingFwd rfl rfl⟩

/-- C15: `New` returns the provider with SSH path `/etc/ssh/sshd_config` and
forwarding path `/proc/sys/net/ipv4/ip_forward`; `Analyze` reads the paths held
in the fields of its provider: its result depends on the file system through
the read results of these two paths only, and its findings are computed from
the contents found there.  A provider built with other paths audits those
paths: over a file system whose default paths hold a secure system and whose
test paths hold an insecure one, `New` reports three passed findings and the
provider of the test paths three failed ones. -/
theorem paths_are_injected :
    New.SSHConfigPath = "/etc/ssh/sshd_config" ∧
    New.IPForwardPath = "/proc/sys/net/ipv4/ip_forward" ∧
    (∀ (p : LinuxProvider) (ctx : Context) (config : Options) (fs₁ fs₂ : FileSystem),
      ReadFile fs₁ p.SSHConfigPath = ReadFile fs₂ p.SSHConfigPath →
      ReadFile fs₁ p.IPForwardPath = ReadFile fs₂ p.IPForwardPath →
      Analyze p ctx config fs₁ = Analyze p ctx config fs₂) ∧
    (∀ (p : LinuxProvider) (ctx : Context) (config : Options) (fs : FileSystem)
      (ssh fwd : String),
      ReadFile fs p.SSHConfigPath = .ok ssh → ReadFile fs p.IPForwardPath = .ok fwd →
      (findings (Analyze p ctx config fs)).map (fun c => (c.ID, c.Passed)) =
        [("LNX-SSH-ROOT", Contains ssh "PermitRootLogin no"),
         ("LNX-SSH-PASS", Contains ssh "PasswordAuthentication no"),
         ("LNX-NET-FWD", decide (TrimSpace fwd = "0"))]) ∧
    (findings (Analyze New ⟨none⟩ none splitFS)).map summary =
      [("LNX-SSH-ROOT", true, 20, 20), ("LNX-SSH-PASS", true, 15, 15),
       ("LNX-NET-FWD", true, 10, 10)] ∧
    (findings (Analyze testProvider ⟨none⟩ none splitFS)).map summary =
      [("LNX-SSH-ROOT", false, 0, 20), ("LNX-SSH-PASS", false, 0, 15),
       ("LNX-NET-FWD", false, 0, 10)] := by
  refine ⟨rfl, rfl, ?_, ?_, by decide, by decide⟩
  · intro p ctx config fs₁ fs₂ h1 h2
    simp only [Analyze, h1, h2]
  · intro p ctx config fs ssh fwd h1 h2
    rw [Analyze_ok_ok p ctx config fs ssh fwd h1 h2]
    rfl

/-- C16: finding identifiers are unique within a report: no two findings of
the report returned by `Analyze` have the same identifier. -/
theorem finding_ids_unique (p : LinuxProvider) (ctx : Context) (config : Options)
    (fs : FileSystem) :
    (findingIDs (Analyze p ctx config fs)).Nodup := by
  cases hssh : ReadFile fs p.SSHConfigPath with
  | error reason =>
    cases hfwd : ReadFile fs p.IPForwardPath with
    | error reason2 =>
      rw [Analyze_error_error p ctx config fs reason reason2 hssh hfwd]
      simp [findingIDs, findings]
    | ok fwd =>
      rw [Analyze_error_ok p ctx config fs reason fwd hssh hfwd]
      simp [findingIDs, findings]
  | ok ssh =>
    cases hfwd : ReadFile fs p.IPForwardPath with
    | error reason2 =>
      rw [Analyze_ok_error p ctx config fs ssh reason2 hssh hfwd]
      simp [findingIDs, findings]
    | ok fwd =>
      rw [Analyze_ok_ok p ctx config fs ssh fwd hssh hfwd]
      simp [findingIDs, findings]

/-- C17: the SSH checks are textual and know neither lines nor comments.  On
the content `commentedSSH`, whose only occurrence of `PermitRootLogin no`
starts right after the comment sign that opens the content, the LNX-SSH-ROOT
finding is reported passed with score 20; and on the content `overriddenSSH`,
which starts with `PermitRootLogin yes` and holds `PermitRootLogin no` later,
it is reported passed with score 20 too. -/
theorem ssh_checks_are_textual (p : LinuxProvider) (ctx : Context) (config : Options)
    (fs : FileSystem) :
    (commentedSSH.data.head? = some '#' ∧ occurrences commentedSSH "PermitRootLogin no" = [1]) ∧
    (ReadFile fs p.SSHConfigPath = .ok commentedSSH →
      ∃ r ∈ findings (Analyze p ctx config fs),
        r.ID = "LNX-SSH-ROOT" ∧ r.Passed = true ∧ r.Score = 20) ∧
    (occurrences overriddenSSH "PermitRootLogin yes" = [0] ∧
      occurrences overriddenSSH "PermitRootLogin no" = [20]) ∧
    (ReadFile fs p.SSHConfigPath = .ok overriddenSSH →
      ∃ r ∈ findings (Analyze p ctx config fs),
        r.ID = "LNX-SSH-ROOT" ∧ r.Passed = true ∧ r.Score = 20) := by
  have key : ∀ ssh : String, Contains ssh "PermitRootLogin no" = true →
      ReadFile fs p.SSHConfigPath = .ok ssh →
      ∃ r ∈ findings (Analyze p ctx config fs),
        r.ID = "LNX-SSH-ROOT" ∧ r.Passed = true ∧ r.Score = 20 := by
    intro ssh hroot hssh
    cases hfwd : ReadFile fs p.IPForwardPath with
    | error reason2 =>
      rw [Analyze_ok_error p ctx config fs ssh reason2 hssh hfwd]
      refine ⟨_, List.mem_cons_self _ _, rfl, hroot, ?_⟩
      simp [hroot, boolToScore]
    | ok fwd =>
      rw [Analyze_ok_ok p ctx config fs ssh fwd hssh hfwd]
      refine ⟨_, List.mem_cons_self _ _, rfl, hroot, ?_⟩
      simp [hroot, boolToScore]
  exact ⟨by decide, key commentedSSH (by decide), by decide, key overriddenSSH (by decide)⟩

/-- The commented configuration, read by `testProvider`, gives the passed root
login finding `rootLoginClosed`. -/
theorem ssh_checks_are_textual_witness :
    ReadFile (testFS (.ok commentedSSH) (.ok "0")) testProvider.SSHConfigPath
      = .ok commentedSSH ∧
    rootLoginClosed ∈ findings (Analyze testProvider ⟨none⟩ none
      (testFS (.ok commentedSSH) (.ok "0"))) ∧
    ∃ r ∈ findings (Analyze testProvider ⟨none⟩ none (testFS (.ok commentedSSH) (.ok "0"))),
      r.ID = "LNX-SSH-ROOT" ∧ r.Passed = true ∧ r.Score = 20 :=
  ⟨rfl, by decide,
    (ssh_checks_are_textual testProvider ⟨none⟩ none
      (testFS (.ok commentedSSH) (.ok "0"))).2.1 rfl⟩

/-- C18: the SSH checks are monotone under adding text.  For all texts `a`,
`b`, `c`, a finding of the SSH part that passed on the content `b` has a
finding of the same identifier on the content `a ++ b ++ c` that passed too,
with the same score; and the sum of the scores of the SSH part on
`a ++ b ++ c` is at least that on `b`. -/
theorem ssh_checks_monotone (p₁ p₂ : LinuxProvider) (ctx₁ ctx₂ : Context)
    (config₁ config₂ : Options) (fs₁ fs₂ : FileSystem) (a b c : String)
    (h₁ : ReadFile fs₁ p₁.SSHConfigPath = .ok b)
    (h₂ : ReadFile fs₂ p₂.SSHConfigPath = .ok (a ++ b ++ c)) :
    (∀ r₁ ∈ sshPart (Analyze p₁ ctx₁ config₁ fs₁), r₁.Passed = true →
      ∃ r₂ ∈ sshPart (Analyze p₂ ctx₂ config₂ fs₂),
        r₂.ID = r₁.ID ∧ r₂.Passed = true ∧ r₂.Score = r₁.Score) ∧
    ((sshPart (Analyze p₁ ctx₁ config₁ fs₁)).map (fun r => r.Score)).sum ≤
      ((sshPart (Analyze p₂ ctx₂ config₂ fs₂)).map (fun r => r.Score)).sum := by
  have mr := Contains_append a b c "PermitRootLogin no"
  have mp := Contains_append a b c "PasswordAuthentication no"
  rw [sshPart_Analyze, sshPart_Analyze, h₁, h₂]
  refine ⟨?_, ?_⟩
  · intro r₁ hr₁ hpass
    simp only [List.mem_cons, List.mem_singleton, List.not_mem_nil, or_false] at hr₁
    rcases hr₁ with rfl | rfl
    · have hb : Contains b "PermitRootLogin no" = true := hpass
      refine ⟨_, List.mem_cons_self _ _, rfl, mr hb, ?_⟩
      simp [hb, mr hb]
    · have hb : Contains b "PasswordAuthentication no" = true := hpass
      refine ⟨_, List.mem_cons_of_mem _ (List.mem_cons_self _ _), rfl, mp hb, ?_⟩
      simp [hb, mp hb]
  · cases hr : Contains b "PermitRootLogin no" <;>
      cases hp : Contains b "PasswordAuthentication no" <;>
      cases hr2 : Contains (a ++ b ++ c) "PermitRootLogin no" <;>
      cases hp2 : Contains (a ++ b ++ c) "PasswordAuthentication no" <;>
      simp_all [boolToScore]

/-- The configuration `rootOnlySSH`, put between a comment line and a further
directive, meets the conditions of `ssh_checks_monotone`: the passed root login
finding stays passed with score 20. -/
theorem ssh_checks_monotone_witness :
    ReadFile (testFS (.ok rootOnlySSH) (.ok "0")) testProvider.SSHConfigPath
      = .ok rootOnlySSH ∧
    ReadFile (testFS (.ok ("# managed\n" ++ rootOnlySSH ++ "UsePAM yes\n")) (.ok "0"))
      testProvider.SSHConfigPath = .ok ("# managed\n" ++ rootOnlySSH ++ "UsePAM yes\n") ∧
    rootLoginClosed ∈ sshPart (Analyze testProvider ⟨none⟩ none
      (testFS (.ok rootOnlySSH) (.ok "0"))) ∧
    rootLoginClosed.Passed = true ∧
    ∃ r₂ ∈ sshPart (Analyze testProvider ⟨none⟩ none
        (testFS (.ok ("# managed\n" ++ rootOnlySSH ++ "UsePAM yes\n")) (.ok "0"))),
      r₂.ID = rootLoginClosed.ID ∧ r₂.Passed = true ∧ r₂.Score = rootLoginClosed.Score :=
  ⟨rfl, rfl, by decide, rfl,
    (ssh_checks_monotone testProvider testProvider ⟨none⟩ ⟨none⟩ none none
      (testFS (.ok rootOnlySSH) (.ok "0"))
      (testFS (.ok ("# managed\n" ++ rootOnlySSH ++ "UsePAM yes\n")) (.ok "0"))
      "# managed\n" rootOnlySSH "UsePAM yes\n" rfl rfl).1 rootLoginClosed (by decide) rfl⟩

/-- C19: in every report the sum of the scores is at most the sum of the
maximum scores, which is at most 45; the sum of the scores is one of 0, 10, 15,
20, 25, 30, 35 and 45, and it is 45 exactly when both artifacts are readable,
the SSH content contains both `PermitRootLogin no` and
`PasswordAuthentication no`, and the trimmed forwarding content is `0`. -/
theorem score_sum_bounds (p : LinuxProvider) (ctx : Context) (config : Options)
    (fs : FileSystem) :
    scoreSum (Analyze p ctx config fs) ≤ maxScoreSum (Analyze p ctx config fs) ∧
    maxScoreSum (Analyze p ctx config fs) ≤ 45 ∧
    scoreSum (Analyze p ctx config fs) ∈ ([0, 10, 15, 20, 25, 30, 35, 45] : List Int) ∧
    (scoreSum (Analyze p ctx config fs) = 45 ↔
      ∃ ssh fwd, ReadFile fs p.SSHConfigPath = .ok ssh ∧ ReadFile fs p.IPForwardPath = .ok fwd ∧
        "PermitRootLogin no".data <:+: ssh.data ∧
        "PasswordAuthentication no".data <:+: ssh.data ∧ TrimSpace fwd = "0") := by
  cases hssh : ReadFile fs p.SSHConfigPath with
  | error reason =>
    cases hfwd : ReadFile fs p.IPForwardPath with
    | error reason2 =>
      rw [Analyze_error_error p ctx config fs reason reason2 hssh hfwd]
      simp [scoreSum, maxScoreSum, findings]
    | ok fwd =>
      rw [Analyze_error_ok p ctx config fs reason fwd hssh hfwd]
      cases hz : decide (TrimSpace fwd = "0") <;>
        simp [scoreSum, maxScoreSum, findings, boolToScore, hz]
  | ok ssh =>
    have er := Contains_iff ssh "PermitRootLogin no"
    have ep := Contains_iff ssh "PasswordAuthentication no"
    cases hfwd : ReadFile fs p.IPForwardPath with
    | error reason2 =>
      rw [Analyze_ok_error p ctx config fs ssh reason2 hssh hfwd]
      cases hr : Contains ssh "PermitRootLogin no" <;>
        cases hp : Contains ssh "PasswordAuthentication no" <;>
        simp [scoreSum, maxScoreSum, findings, boolToScore]
    | ok fwd =>
      rw [Analyze_ok_ok p ctx config fs ssh fwd hssh hfwd]
      refine ⟨?_, ?_, ?_, ⟨fun h => ⟨ssh, fwd, rfl, rfl, ?_⟩, ?_⟩⟩
      · cases hz : decide (TrimSpace fwd = "0") <;>
          cases hr : Contains ssh "PermitRootLogin no" <;>
          cases hp : Contains ssh "PasswordAuthentication no" <;>
          simp [scoreSum, maxScoreSum, findings, boolToScore]
      · simp [maxScoreSum, findings]
      · cases hz : decide (TrimSpace fwd = "0") <;>
          cases hr : Contains ssh "PermitRootLogin no" <;>
          cases hp : Contains ssh "PasswordAuthentication no" <;>
          simp [scoreSum, findings, boolToScore]
      · rw [← er, ← ep, ← @decide_eq_true_iff (TrimSpace fwd = "0") _]
        revert h
        cases hz : decide (TrimSpace fwd = "0") <;>
          cases hr : Contains ssh "PermitRootLogin no" <;>
          cases hp : Contains ssh "PasswordAuthentication no" <;>
          simp [scoreSum, findings, boolToScore]
      · rintro ⟨ssh2, fwd2, h1, h2, hr, hp, hz⟩
        cases h1
        cases h2
        simp [scoreSum, findings, boolToScore, er.mpr hr, ep.mpr hp, hz]

/-- The secure system reaches the full sum: its report scores 45 of 45. -/
theorem score_sum_bounds_witness :
    scoreSum (Analyze testProvider ⟨none⟩ none (testFS (.ok secureSSH) (.ok "0"))) = 45 ∧
    maxScoreSum (Analyze testProvider ⟨none⟩ none (testFS (.ok secureSSH) (.ok "0"))) = 45 ∧
    ∃ ssh fwd,
      ReadFile (testFS (.ok secureSSH) (.ok "0")) testProvider.SSHConfigPath = .ok ssh ∧
      ReadFile (testFS (.ok secureSSH) (.ok "0")) testProvider.IPForwardPath = .ok fwd ∧
      "PermitRootLogin no".data <:+: ssh.data ∧
      "PasswordAuthentication no".data <:+: ssh.data ∧ TrimSpace fwd = "0" :=
  ⟨by decide, by decide,
    (score_sum_bounds testProvider ⟨none⟩ none (testFS (.ok secureSSH) (.ok "0"))).2.2.2.mp
      (by decide)⟩

/-- C20: the provider identifier of every report is the identifier of the
static metadata: the report of `Analyze` has PluginID `provider-linux`, which
is the ID that `Info` returns, and `Info` returns the same metadata for every
provider. -/
theorem plugin_id_matches_info (p : LinuxProvider) (ctx : Context) (config : Options)
    (fs : FileSystem) :
    (∃ rep, (Analyze p ctx config fs).1 = some rep ∧ rep.PluginID = "provider-linux" ∧
      rep.PluginID = (Info p).ID) ∧
    (Info p).ID = "provider-linux" ∧
    (∀ q : LinuxProvider, Info q = Info p) ∧
    Info p =
      { ID := "provider-linux"
        Name := "Linux Security Auditor"
        Version := "0.1.0"
        Description := "Audits SSH, Firewall and Kernel security settings"
        Author := "GOHL Core" } := by
  refine ⟨⟨_, rfl, rfl, rfl⟩, rfl, fun _ => rfl, rfl⟩

end GohlLinux
